import Mathlib

/-!
# Verification of the tds-solver request-resolution policy

Shallow embedding of `src/api/app.py` (the whole repository is this one
file): the predefined Answer Table, the substring lookup
`get_predefined_answer`, the file interpreter `process_file` (the
aggregate-margin CSV rule), the prompt construction of `get_llm_answer`,
and the `POST /api/` handler `solve_assignment`.

Modelling conventions:
* Python strings are Lean `String`s; character-level operations work on
  `List Char`.  `str.lower()` / `str.upper()` are mapped through
  `Char.toLower` / `Char.toUpper`, which agree with Python on ASCII (all
  data in the program is ASCII).
* Python `float` arithmetic is modelled with exact rational values
  (`PyFloat`, an integer fraction kept unnormalized so every operation is
  kernel-computable; `PyFloat.toRat` gives the value in `ℚ`).  The
  concrete values exercised by the program (sums of small decimals,
  `%.4f` formatting away from ties) behave identically to IEEE doubles.
* Exceptions are modelled with `Except String`; the message carried is a
  description, not a byte-faithful copy of Python's message.
* The chat-completion call is an external collaborator: the model's reply
  is a parameter of the embedding, and the handler records which stages
  it invoked.
-/

namespace TdsSolver

/-- `startsWithCL hay pat` : `pat` is a prefix of `hay`
(character-by-character, like Python's startswith). -/
def startsWithCL : List Char → List Char → Bool
  | _, [] => true
  | [], _ :: _ => false
  | a :: as, b :: bs => a == b && startsWithCL as bs

/-- `containsCL hay pat` : Python's `pat in hay` substring test on
character lists. -/
def containsCL : List Char → List Char → Bool
  | [], pat => pat.isEmpty
  | hay@(_ :: t), pat => startsWithCL hay pat || containsCL t pat

/-- Python `pat in hay` on strings. -/
def containsStr (hay pat : String) : Bool :=
  containsCL hay.data pat.data

/-- Python `s.lower()` (ASCII case fold, matching the program's data). -/
def lowerStr (s : String) : String :=
  ⟨s.data.map Char.toLower⟩

/-- Python `s.upper()` (ASCII). -/
def upperStr (s : String) : String :=
  ⟨s.data.map Char.toUpper⟩

/-- The characters Python's argument-less `str.strip()` removes
(ASCII whitespace; the program only ever meets these). -/
def isPySpace (c : Char) : Bool :=
  c == ' ' || c == '\t' || c == '\n' || c == '\r' ||
  c == '\x0b' || c == '\x0c'

/-- Python `s.strip()` on character lists: drop leading and trailing
whitespace. -/
def pyStripCL (l : List Char) : List Char :=
  ((l.dropWhile isPySpace).reverse.dropWhile isPySpace).reverse

/-- Python `s.strip()`. -/
def pyStrip (s : String) : String :=
  ⟨pyStripCL s.data⟩

/-- The predefined Answer Table of `app.py` (lines 30-60), in declaration
order.  Python iterates a `dict` in insertion order, so the list order is
the iteration order of `predefined_answers.items()`. -/
def predefined_answers : List (String × String) :=
  [ -- Graded Assignment 1
    ("Install and run Visual Studio Code. In your Terminal (or Command Prompt), type code -s and press Enter. Copy and paste the entire output below. What is the output of code -s?",
     "The command \x27code -s\x27 is not valid. It will likely return an error or no output."),
    ("What is the output of the command \x27python --version\x27?", "Python 3.x.x"),
    ("What is the output of \x27pip list\x27 command?", "A list of installed Python packages and their versions"),
    -- Graded Assignment 2
    ("How many unique students are there in the file?", "199"),
    ("What is the average score of all students?", "75.5"),
    ("What is the highest score in the dataset?", "98"),
    ("What is the lowest score in the dataset?", "45"),
    -- Graded Assignment 3
    ("What is the total margin for transactions before Sat Mar 12 2022 10:02:11 GMT+0530 (India Standard Time) for Gamma sold in BR (which may be spelt in different ways)?", "0.5154"),
    ("What is the total sales value for all products in the dataset?", "1250000"),
    ("What is the average price of product Alpha?", "150.25"),
    ("How many transactions were made in the month of March 2022?", "250"),
    -- Graded Assignment 4
    ("What is the number of successful GET requests for pages under /hindimp3/ from 18:00 until before 22:00 on Thursdays?", "106"),
    ("What is the total number of unique IP addresses in the log file?", "150"),
    ("What is the most common HTTP status code?", "200"),
    ("What is the average response time for POST requests?", "0.45"),
    -- Graded Assignment 5
    ("What is the correlation coefficient between X and Y variables?", "0.75"),
    ("What is the R-squared value of the linear regression model?", "0.82"),
    ("What is the p-value for the hypothesis test?", "0.03"),
    ("What is the 95% confidence interval for the mean?", "[45.2, 54.8]"),
    ("What is the total margin for transactions before Sat Mar 12 2022 10:02:11 GMT+0530 (India Standard Time) for Gamma sold in BR ? ", "0.5154") ]

/-- `get_predefined_answer` over an arbitrary table (the loop body of
`app.py` lines 90-93): first entry whose lower-cased pattern occurs as a
substring of the lower-cased question wins; `none` if no entry matches. -/
def lookupTable : List (String × String) → String → Option String
  | [], _ => none
  | (p, a) :: rest, q =>
    if containsStr (lowerStr q) (lowerStr p) then some a else lookupTable rest q

/-- `get_predefined_answer` (`app.py` lines 88-93). -/
def get_predefined_answer (question : String) : Option String :=
  lookupTable predefined_answers question

/-! ## File interpreter (`process_file`, `app.py` lines 95-128) -/

/-- Split a character list at every occurrence of `sep` (Python
`s.split(sep)` for a one-character separator): always at least one piece,
empty pieces preserved. -/
def splitOnCharCL (sep : Char) : List Char → List (List Char)
  | [] => [[]]
  | c :: rest =>
    let r := splitOnCharCL sep rest
    if c == sep then [] :: r
    else match r with
      | [] => [[c]]
      | piece :: more => (c :: piece) :: more

/-- Python `content.splitlines()` restricted to `\n` separators (the
inputs the program meets): split on `\n`, with no trailing empty line for
a trailing newline. -/
def splitlinesStr (s : String) : List String :=
  match s.data with
  | [] => []
  | l =>
    let pieces := splitOnCharCL '\n' l
    let pieces := match pieces.getLast? with
      | some [] => pieces.dropLast
      | _ => pieces
    pieces.map fun p => ⟨p⟩

/-- A CSV record as produced by `csv.DictReader`: column name to cell
text, in column order. -/
def Row := List (String × String)

/-- `row[name]` : first cell stored under `name`; `none` models the
`KeyError` raised on a missing column. -/
def getField (row : Row) (name : String) : Option String :=
  match row with
  | [] => none
  | (k, v) :: rest => if k == name then some v else getField rest name

/-- `csv.DictReader(content.splitlines())`: the first line gives the
column names (split on commas — none of the program's inputs use quoted
fields), each further non-blank line is zipped with them into a `Row`. -/
def parseRows (content : String) : List Row :=
  match (splitlinesStr content).filter (fun l => !l.isEmpty) with
  | [] => []
  | header :: rest =>
    let names := (splitOnCharCL ',' header.data).map fun p => (⟨p⟩ : String)
    rest.map fun line =>
      names.zip ((splitOnCharCL ',' line.data).map fun p => (⟨p⟩ : String))

/-- Python `s.replace("USD", "")`: delete every (left-to-right,
non-overlapping) occurrence of `USD`. -/
def removeUSD : List Char → List Char
  | 'U' :: 'S' :: 'D' :: rest => removeUSD rest
  | c :: rest => c :: removeUSD rest
  | [] => []

/-- Digit run to its numeric value (`none` on a non-digit). -/
def digitsVal : List Char → Option ℕ
  | [] => some 0
  | c :: rest =>
    if c.isDigit then
      (digitsVal rest).map fun n => (c.toNat - 48) * 10 ^ rest.length + n
    else none

/-- The exact value of a Python float in the interpreter: an integer
fraction, kept unnormalized so that every arithmetic step reduces in the
kernel.  The denominator is positive for every value the program
builds. -/
structure PyFloat where
  num : Int
  den : Int
deriving DecidableEq, Repr

/-- The rational value a `PyFloat` stands for. -/
def PyFloat.toRat (a : PyFloat) : ℚ := (a.num : ℚ) / (a.den : ℚ)

/-- The integer `n` as a float (`total_sales = 0` starts from here). -/
def PyFloat.ofNat (n : ℕ) : PyFloat := ⟨n, 1⟩

def PyFloat.add (a b : PyFloat) : PyFloat :=
  ⟨a.num * b.den + b.num * a.den, a.den * b.den⟩

def PyFloat.sub (a b : PyFloat) : PyFloat :=
  ⟨a.num * b.den - b.num * a.den, a.den * b.den⟩

def PyFloat.mul (a b : PyFloat) : PyFloat :=
  ⟨a.num * b.num, a.den * b.den⟩

def PyFloat.div (a b : PyFloat) : PyFloat :=
  ⟨a.num * b.den, a.den * b.num⟩

def PyFloat.neg (a : PyFloat) : PyFloat := ⟨-a.num, a.den⟩

/-- Python `x == 0` for a fraction with nonzero denominator. -/
def PyFloat.isZero (a : PyFloat) : Bool := a.num == 0

/-- Unsigned decimal numeral (`"100"`, `"100.5"`, `".5"`, `"5."`) to its
exact value; `none` models `ValueError` from Python `float`.
Exponent forms never occur in the program's data and are not modelled. -/
def parseUnsigned (l : List Char) : Option PyFloat :=
  let ip := l.takeWhile Char.isDigit
  let rest := l.dropWhile Char.isDigit
  match rest with
  | [] =>
    if ip.isEmpty then none
    else (digitsVal ip).map fun n => PyFloat.ofNat n
  | '.' :: fp =>
    if ip.isEmpty && fp.isEmpty then none
    else
      match digitsVal ip, digitsVal fp with
      | some n, some f => some ⟨n * 10 ^ fp.length + f, 10 ^ fp.length⟩
      | _, _ => none
  | _ => none

/-- Python `float(s)` on the strings the interpreter feeds it (an
optional sign then a decimal numeral). -/
def parseFloat (s : String) : Option PyFloat :=
  match s.data with
  | '-' :: rest => (parseUnsigned rest).map PyFloat.neg
  | '+' :: rest => parseUnsigned rest
  | l => parseUnsigned l

/-- Lexicographic `≤` on character lists by code point: Python's string
comparison `sale_date <= "2022-03-12T10:02:11"`. -/
def lexLeCL : List Char → List Char → Bool
  | [], _ => true
  | _ :: _, [] => false
  | a :: as, b :: bs => a < b || (a == b && lexLeCL as bs)

/-- Zero-pad a remainder below 10000 to exactly four digits. -/
def pad4 (n : ℕ) : String :=
  if n < 10 then "000" ++ toString n
  else if n < 100 then "00" ++ toString n
  else if n < 1000 then "0" ++ toString n
  else toString n

/-- `f"{margin:.4f}"` (`app.py` line 123), on the exact value standing
in for the Python float: round the magnitude to the nearest 1/10000
(half away from zero — the program's values never land on a tie) and
print sign, integer part and four decimals. -/
def formatQ4 (a : PyFloat) : String :=
  let neg := (decide (a.num < 0) != decide (a.den < 0)) && a.num != 0
  let n := a.num.natAbs
  let d := a.den.natAbs
  let scaled := (n * 10000 * 2 + d) / (2 * d)
  let digits := toString (scaled / 10000) ++ "." ++ pad4 (scaled % 10000)
  if neg then "-" ++ digits else digits

/-- One iteration of the margin loop (`app.py` lines 106-121): filter by
country, product and date; on a surviving row parse the currency amounts
(an empty cost defaulting to half the sale) and accumulate; `Except.error`
models the exceptions (`KeyError` on a missing column, `ValueError` from
`float`). -/
def stepRow (acc : PyFloat × PyFloat) (row : Row) :
    Except String (PyFloat × PyFloat) :=
  match getField row "Country" with
  | none => .error "KeyError: Country"
  | some countryRaw =>
    let country := upperStr (pyStrip countryRaw)
    if country == "BR" || country == "BRAZIL" then
      match getField row "Product" with
      | none => .error "KeyError: Product"
      | some productRaw =>
        let product := pyStrip ⟨(splitOnCharCL '/' productRaw.data).headI⟩
        if lowerStr product == "gamma" then
          match getField row "Date" with
          | none => .error "KeyError: Date"
          | some dateRaw =>
            let sale_date := pyStrip dateRaw
            if lexLeCL sale_date.data "2022-03-12T10:02:11".data then
              match getField row "Sales" with
              | none => .error "KeyError: Sales"
              | some salesRaw =>
                match parseFloat (pyStrip ⟨removeUSD salesRaw.data⟩) with
                | none => .error "ValueError: could not convert string to float"
                | some sales =>
                  match getField row "Cost" with
                  | none => .error "KeyError: Cost"
                  | some costRaw =>
                    match
                      if costRaw.isEmpty then some (sales.mul ⟨1, 2⟩)
                      else parseFloat (pyStrip ⟨removeUSD costRaw.data⟩)
                    with
                    | none => .error "ValueError: could not convert string to float"
                    | some cost => .ok (acc.1.add sales, acc.2.add cost)
            else .ok acc
        else .ok acc
    else .ok acc

/-- The whole `for row in reader` loop, `total_sales` and `total_cost`
threaded; an exception aborts the loop. -/
def marginFold :
    List Row → PyFloat × PyFloat → Except String (PyFloat × PyFloat)
  | [], acc => .ok acc
  | r :: rs, acc =>
    match stepRow acc r with
    | .error e => .error e
    | .ok acc2 => marginFold rs acc2

/-- `app.py` lines 104-123: run the loop, then
`margin = (total_sales - total_cost) / total_sales` — Python raises
`ZeroDivisionError` exactly when the denominator is zero — and format. -/
def marginAnswer (rows : List Row) : Except String String :=
  match marginFold rows (PyFloat.ofNat 0, PyFloat.ofNat 0) with
  | .error e => .error e
  | .ok (ts, tc) =>
    if ts.isZero then .error "division by zero"
    else .ok (formatQ4 ((ts.sub tc).div ts))

/-- The fall-through answer of `process_file` (`app.py` line 126). -/
def sentinelAnswer : String :=
  "File processed successfully, but no specific logic implemented for this question."

/-- The dispatch test of `app.py` line 102:
`"total margin for transactions" in question.lower()`. -/
def marginTrigger (question : String) : Bool :=
  containsStr (lowerStr question) "total margin for transactions"

/-- `process_file` (`app.py` lines 95-128) on the (already utf-8 decoded)
file content: the aggregate-margin rule when the question triggers it,
the sentinel string otherwise; every exception is re-raised as
`HTTPException(400, "Error processing file: ...")`, modelled as
`Except.error`. -/
def process_file (content question : String) : Except String String :=
  (if marginTrigger question then marginAnswer (parseRows content)
   else Except.ok sentinelAnswer).mapError
    fun e => "Error processing file: " ++ e

/-! ## Model fallback client (`get_llm_answer`, `app.py` lines 63-86) -/

/-- `app.py` line 66: does the lower-cased question contain one of the
trigger keywords? -/
def sqlTrigger (question : String) : Bool :=
  containsStr (lowerStr question) "sql" ||
  containsStr (lowerStr question) "query" ||
  containsStr (lowerStr question) "duckdb"

/-- The fixed part of the SQL-permitting prompt (`app.py` lines 67-72),
up to the interpolated question. -/
def sqlPromptHeader : String :=
  "You are an expert assistant. Analyze the following question and respond appropriately:\n        - If the question requires an SQL query, generate the SQL query.\n        - If the question is general or unrelated to SQL, provide a concise and accurate answer.\n        - Return ONLY the answer or SQL query without any explanation or additional text.\n\n        Question: "

/-- The fixed part of the SQL-forbidding prompt (`app.py` lines 74-79). -/
def generalPromptHeader : String :=
  "You are an expert assistant. Analyze the following question and respond appropriately:\n        - Provide a concise and accurate answer.\n        - Do NOT generate SQL queries unless explicitly asked.\n        - Return ONLY the answer without any explanation or additional text.\n\n        Question: "

/-- Prompt construction of `get_llm_answer`: the SQL-permitting wording
when a trigger keyword is present, the SQL-forbidding wording
otherwise. -/
def build_prompt (question : String) : String :=
  if sqlTrigger question then sqlPromptHeader ++ question
  else generalPromptHeader ++ question

/-- `get_llm_answer` (`app.py` lines 63-86): send `build_prompt question`
to the external chat-completion collaborator (`model`, a parameter of the
embedding) and return the reply stripped of leading and trailing
whitespace (`.strip()`, line 86). -/
def get_llm_answer (model : String → String) (question : String) : String :=
  pyStrip (model (build_prompt question))

/-! ## The `POST /api/` handler (`solve_assignment`, lines 137-157) -/

/-- Python truthiness of `Optional[str]`: `None` and `""` are falsy. -/
def truthy : Option String → Bool
  | none => false
  | some s => !s.isEmpty

/-- What one request produced: the JSON `{"answer": ...}` payload or the
HTTP 400 detail, and which fallback stages ran. -/
structure Outcome where
  answer : Option String
  errorDetail : Option String
  interpInvoked : Bool
  modelInvoked : Bool
deriving DecidableEq, Repr

/-- `solve_assignment` (`app.py` lines 137-157): predefined answers
first; else, with a file attached, `process_file`; else the model
fallback.  `file` is the decoded content of the attachment, `model` the
external chat-completion collaborator. -/
def solve_assignment (question : String) (file : Option String)
    (model : String → String) : Outcome :=
  let predefined_answer := get_predefined_answer question
  if truthy predefined_answer then
    { answer := predefined_answer, errorDetail := none,
      interpInvoked := false, modelInvoked := false }
  else
    match file with
    | some content =>
      match process_file content question with
      | .ok file_answer =>
        { answer := some file_answer, errorDetail := none,
          interpInvoked := true, modelInvoked := false }
      | .error e =>
        { answer := none, errorDetail := some e,
          interpInvoked := true, modelInvoked := false }
    | none =>
      { answer := some (get_llm_answer model question), errorDetail := none,
        interpInvoked := false, modelInvoked := true }

/-! ## Startup configuration (`app.py` lines 25-27) -/

/-- The process configuration built at import time. -/
structure AppConfig where
  aiproxy_token : Option String
deriving DecidableEq, Repr

/-- `app.py` lines 25-27: `AIPROXY_TOKEN = os.getenv("AIPROXY_TOKEN")`
and the two `openai` global assignments.  There is no presence check and
no exit path: startup always succeeds, recording whatever the environment
held (possibly nothing). -/
def startup (env : String → Option String) : Except String AppConfig :=
  Except.ok { aiproxy_token := env "AIPROXY_TOKEN" }

/-! ## Bridge lemmas: the scanning primitives compute the mathematical
prefix / infix relations -/

theorem startsWithCL_iff (hay pat : List Char) :
    startsWithCL hay pat = true ↔ pat <+: hay := by
  induction hay generalizing pat with
  | nil => cases pat <;> simp [startsWithCL]
  | cons a as ih =>
    cases pat with
    | nil => simp [startsWithCL]
    | cons b bs =>
      simp only [startsWithCL, Bool.and_eq_true, beq_iff_eq,
        List.cons_prefix_cons, ih]
      exact ⟨fun ⟨h1, h2⟩ => ⟨h1.symm, h2⟩, fun ⟨h1, h2⟩ => ⟨h1.symm, h2⟩⟩

theorem containsCL_iff (hay pat : List Char) :
    containsCL hay pat = true ↔ pat <:+: hay := by
  induction hay with
  | nil =>
    simp [containsCL, List.infix_nil, List.isEmpty_iff]
  | cons a t ih =>
    simp [containsCL, List.infix_cons_iff, startsWithCL_iff, ih]

theorem containsStr_iff (hay pat : String) :
    containsStr hay pat = true ↔ pat.data <:+: hay.data :=
  containsCL_iff hay.data pat.data

/-! ## The Answer Table: every key resolves to its own answer -/

/-- Scanning the table with any of its own keys returns that key's
answer (no earlier pattern preempts any later key), and no stored answer
is the empty string (so the `if predefined_answer:` truthiness test in
the handler accepts every table hit). -/
theorem tableSelf :
    ∀ pa ∈ predefined_answers,
      get_predefined_answer pa.1 = some pa.2 ∧ pa.2 ≠ "" := by decide

/-- C1: For every question string that appears verbatim as a key of the
Answer Table, the `POST /api/` handler returns exactly the stored answer
for that key, for every possible attached file (including none) and
every behaviour of the external model: the File Interpreter and the
Model Fallback Client are never invoked on such a request. -/
theorem c1_table_precedence (p a : String) (h : (p, a) ∈ predefined_answers)
    (file : Option String) (model : String → String) :
    solve_assignment p file model =
      { answer := some a, errorDetail := none,
        interpInvoked := false, modelInvoked := false } := by
  obtain ⟨hl, hne⟩ := tableSelf (p, a) h
  have hl' : get_predefined_answer p = some a := hl
  have hne' : a ≠ "" := hne
  have ht : truthy (some a) = true := by
    simp only [truthy, Bool.not_eq_true']
    rw [Bool.eq_false_iff]
    exact fun hcontra => hne' ((String.isEmpty_iff a).mp hcontra)
  unfold solve_assignment
  simp only [hl', ht, if_true]

theorem c1_witness :
    ("What is the most common HTTP status code?", "200") ∈ predefined_answers ∧
    solve_assignment "What is the most common HTTP status code?"
        (some "some,file\ncontent,here") (fun _ => "model reply") =
      { answer := some "200", errorDetail := none,
        interpInvoked := false, modelInvoked := false } :=
  ⟨by decide,
   c1_table_precedence "What is the most common HTTP status code?" "200"
     (by decide) (some "some,file\ncontent,here") (fun _ => "model reply")⟩

/-! ## The lookup policy (claim C2) -/

theorem lookupTable_eq_none_iff (t : List (String × String)) (q : String) :
    lookupTable t q = none ↔
      ∀ pa ∈ t, ¬ ((lowerStr pa.1).data <:+: (lowerStr q).data) := by
  induction t with
  | nil => simp [lookupTable]
  | cons hd rest ih =>
    obtain ⟨p0, a0⟩ := hd
    cases hc : containsStr (lowerStr q) (lowerStr p0) with
    | true =>
      have := (containsStr_iff _ _).mp hc
      simp [lookupTable, hc, this]
    | false =>
      have : ¬ ((lowerStr p0).data <:+: (lowerStr q).data) := by
        rw [← containsStr_iff, hc]; simp
      simp [lookupTable, hc, ih, this]

theorem lookupTable_eq_some_iff (t : List (String × String)) (q a : String) :
    lookupTable t q = some a ↔
      ∃ t1 t2 p, t = t1 ++ (p, a) :: t2 ∧
        (lowerStr p).data <:+: (lowerStr q).data ∧
        ∀ pa ∈ t1, ¬ ((lowerStr pa.1).data <:+: (lowerStr q).data) := by
  induction t with
  | nil =>
    simp [lookupTable]
  | cons hd rest ih =>
    obtain ⟨p0, a0⟩ := hd
    cases hc : containsStr (lowerStr q) (lowerStr p0) with
    | true =>
      have hinf := (containsStr_iff _ _).mp hc
      constructor
      · intro h
        simp [lookupTable, hc] at h
        exact ⟨[], rest, p0, by rw [h]; simp, hinf, by simp⟩
      · rintro ⟨t1, t2, p, heq, hpinf, hall⟩
        cases t1 with
        | nil =>
          rw [List.nil_append] at heq
          injection heq with h1 h2
          have ha : a0 = a := congrArg Prod.snd h1
          simp [lookupTable, hc, ha]
        | cons x t1' =>
          rw [List.cons_append] at heq
          injection heq with h1 h2
          apply absurd _ (hall x (List.mem_cons_self x t1'))
          rw [← h1]
          exact hinf
    | false =>
      have hninf : ¬ ((lowerStr p0).data <:+: (lowerStr q).data) := by
        rw [← containsStr_iff, hc]; simp
      constructor
      · intro h
        rw [show lookupTable ((p0, a0) :: rest) q = lookupTable rest q by
          simp [lookupTable, hc]] at h
        obtain ⟨t1, t2, p, heq, hpinf, hall⟩ := ih.mp h
        refine ⟨(p0, a0) :: t1, t2, p, by rw [heq, List.cons_append], hpinf, ?_⟩
        intro pa hpa
        rcases List.mem_cons.mp hpa with h1 | h1
        · rw [h1]; exact hninf
        · exact hall pa h1
      · rintro ⟨t1, t2, p, heq, hpinf, hall⟩
        cases t1 with
        | nil =>
          rw [List.nil_append] at heq
          injection heq with h1 h2
          have hp : p0 = p := congrArg Prod.fst h1
          exact absurd (hp.symm ▸ hpinf) hninf
        | cons x t1' =>
          rw [List.cons_append] at heq
          injection heq with h1 h2
          rw [show lookupTable ((p0, a0) :: rest) q = lookupTable rest q by
            simp [lookupTable, hc]]
          refine ih.mpr ⟨t1', t2, p, h2, hpinf, ?_⟩
          intro pa hpa
          exact hall pa (List.mem_cons_of_mem x hpa)

/-- C2: The Answer Table lookup implements the case-insensitive
containment policy: `get_predefined_answer` returns the answer of the
first entry, in table-declaration order, whose case-folded pattern is a
substring of the case-folded question (the table splits as `t1 ++
(pattern, answer) :: t2` with no match in `t1`), and returns `none`
exactly when no stored pattern is such a substring. -/
theorem c2_lookup_first_match (q : String) :
    (get_predefined_answer q = none ↔
      ∀ pa ∈ predefined_answers,
        ¬ ((lowerStr pa.1).data <:+: (lowerStr q).data)) ∧
    ∀ a, get_predefined_answer q = some a ↔
      ∃ t1 t2 p, predefined_answers = t1 ++ (p, a) :: t2 ∧
        (lowerStr p).data <:+: (lowerStr q).data ∧
        ∀ pa ∈ t1, ¬ ((lowerStr pa.1).data <:+: (lowerStr q).data) :=
  ⟨lookupTable_eq_none_iff predefined_answers q,
   fun a => lookupTable_eq_some_iff predefined_answers q a⟩

/-- C3: For the aggregate-margin rule, on a file containing the two rows
`Gamma/X,BR,2022-03-01,100USD,` and `Gamma,Brazil,2022-03-10,50USD,20USD`
(columns Product, Country, Date, Sales, Cost), the File Interpreter sums
`total_sales = 150` and `total_cost = 70` (the empty cost defaulting to
half the sale) and returns the margin formatted to 4 decimal places,
`"0.5333"`. -/
theorem c3_aggregate_margin_example :
    (∃ ts tc, marginFold
      (parseRows "Product,Country,Date,Sales,Cost\nGamma/X,BR,2022-03-01,100USD,\nGamma,Brazil,2022-03-10,50USD,20USD")
      (PyFloat.ofNat 0, PyFloat.ofNat 0) = Except.ok (ts, tc) ∧
      ts.toRat = 150 ∧ tc.toRat = 70) ∧
    process_file
      "Product,Country,Date,Sales,Cost\nGamma/X,BR,2022-03-01,100USD,\nGamma,Brazil,2022-03-10,50USD,20USD"
      "What is the total margin for transactions for Gamma sold in BR?" =
      Except.ok "0.5333" := by
  refine ⟨⟨⟨150, 1⟩, ⟨140, 2⟩, rfl, ?_, ?_⟩, rfl⟩ <;>
    norm_num [PyFloat.toRat]

/-! ## Claim C4: an empty matching set is an error, never an answer -/

/-- A row survives the three filters of the margin loop: its country
(trimmed, upper-cased) is `BR` or `BRAZIL`, its product (text before the
slash, trimmed, lower-cased) is `gamma`, and its trimmed date is at most
the cutoff — with every required column present. -/
def survives (row : Row) : Bool :=
  match getField row "Country" with
  | none => false
  | some countryRaw =>
    let country := upperStr (pyStrip countryRaw)
    (country == "BR" || country == "BRAZIL") &&
    match getField row "Product" with
    | none => false
    | some productRaw =>
      (lowerStr (pyStrip ⟨(splitOnCharCL '/' productRaw.data).headI⟩) == "gamma") &&
      match getField row "Date" with
      | none => false
      | some dateRaw => lexLeCL (pyStrip dateRaw).data "2022-03-12T10:02:11".data

/-- A row that fails the filters either leaves the accumulator unchanged
or aborts the loop with an exception; it never contributes to the
sums. -/
theorem stepRow_of_not_survives (acc : PyFloat × PyFloat) (row : Row)
    (h : survives row = false) :
    stepRow acc row = .ok acc ∨ ∃ e, stepRow acc row = .error e := by
  unfold stepRow survives at *
  repeat' split <;> simp_all

/-- If no row survives, the loop either finishes with the accumulator it
started from or aborts with an exception. -/
theorem marginFold_of_none_survives (rows : List Row) (acc : PyFloat × PyFloat)
    (h : ∀ r ∈ rows, survives r = false) :
    marginFold rows acc = .ok acc ∨ ∃ e, marginFold rows acc = .error e := by
  induction rows generalizing acc with
  | nil => exact Or.inl rfl
  | cons r rs ih =>
    rcases stepRow_of_not_survives acc r (h r (List.mem_cons_self r rs)) with h1 | ⟨e, h1⟩
    · rw [show marginFold (r :: rs) acc = marginFold rs acc by
        simp [marginFold, h1]]
      exact ih acc fun x hx => h x (List.mem_cons_of_mem r hx)
    · exact Or.inr ⟨e, by simp [marginFold, h1]⟩

/-- C4: For every file in which no row survives the aggregate-margin
rule's filters (so `total_sales` stays zero), the interpreter fails with
a surfaced error — the `ZeroDivisionError` (or a column-access error)
re-raised as an HTTP 400 error response, never an unhandled crash — and
never returns any answer string, in particular not `"0.0000"`. -/
theorem c4_empty_match_is_error (content question : String)
    (hq : marginTrigger question = true)
    (h : ∀ r ∈ parseRows content, survives r = false) :
    (∃ e, process_file content question = Except.error e) ∧
    ∀ s, process_file content question ≠ Except.ok s := by
  have hm : ∃ e, marginAnswer (parseRows content) = Except.error e := by
    rcases marginFold_of_none_survives (parseRows content) (PyFloat.ofNat 0, PyFloat.ofNat 0) h with h1 | ⟨e, h1⟩
    · refine ⟨"division by zero", ?_⟩
      unfold marginAnswer
      rw [h1]
      simp [PyFloat.isZero, PyFloat.ofNat]
    · refine ⟨e, ?_⟩
      unfold marginAnswer
      rw [h1]
  obtain ⟨e, he⟩ := hm
  have hp : process_file content question =
      Except.error ("Error processing file: " ++ e) := by
    simp [process_file, hq, he, Except.mapError]
  exact ⟨⟨_, hp⟩, fun s hs => by rw [hp] at hs; exact Except.noConfusion hs⟩

theorem c4_witness :
    (marginTrigger "What is the total margin for transactions in 2023?" = true ∧
     ∀ r ∈ parseRows "Product,Country,Date,Sales,Cost\nAlpha,US,2022-01-01,10USD,5USD",
       survives r = false) ∧
    (∃ e, process_file "Product,Country,Date,Sales,Cost\nAlpha,US,2022-01-01,10USD,5USD"
        "What is the total margin for transactions in 2023?" = Except.error e) ∧
    ∀ s, process_file "Product,Country,Date,Sales,Cost\nAlpha,US,2022-01-01,10USD,5USD"
        "What is the total margin for transactions in 2023?" ≠ Except.ok s :=
  ⟨⟨by decide, by decide⟩,
   c4_empty_match_is_error
     "Product,Country,Date,Sales,Cost\nAlpha,US,2022-01-01,10USD,5USD"
     "What is the total margin for transactions in 2023?"
     (by decide) (by decide)⟩

/-! ## Claims C5 and C6: the only file rule is the margin rule -/

/-- Any question that does not contain the margin trigger falls through
to the sentinel answer: `process_file` has no other rule. -/
theorem process_file_sentinel (content question : String)
    (h : marginTrigger question = false) :
    process_file content question = Except.ok sentinelAnswer := by
  unfold process_file
  rw [h]
  rfl

/-- C5 counterexample: on the unique-count file from the spec, with a
question asking for the count of unique ids, the handler answers with the
sentinel string (no unique-count rule exists in the code), not `"2"`. -/
theorem c5_counterexample :
    (solve_assignment "How many unique ids are there in the file?"
        (some "1 - Alice: x\n2 - Bob: y\n1 - Alice: z") (fun _ => "")).answer =
      some sentinelAnswer ∧ sentinelAnswer ≠ "2" :=
  ⟨by rfl, by decide⟩

/-- C5 (amended): the File Interpreter implements no unique-count rule;
every question that does not trigger the aggregate-margin rule is
answered, for any attached file content, with the sentinel string. -/
theorem c5_no_unique_count_rule (content question : String)
    (h : marginTrigger question = false) :
    process_file content question = Except.ok sentinelAnswer :=
  process_file_sentinel content question h

theorem c5_witness :
    marginTrigger "How many unique ids are there in the file?" = false ∧
    process_file "1 - Alice: x\n2 - Bob: y\n1 - Alice: z"
      "How many unique ids are there in the file?" = Except.ok sentinelAnswer :=
  ⟨by decide,
   c5_no_unique_count_rule "1 - Alice: x\n2 - Bob: y\n1 - Alice: z"
     "How many unique ids are there in the file?" (by decide)⟩

/-- C6 counterexample: an uploaded archive whose inner CSV has an
`answer` column with first value `42` is not answered with `"42"`: the
code has no container rule, and the request falls through to the
sentinel answer. -/
theorem c6_counterexample :
    (solve_assignment "What is the answer in the attached archive?"
        (some "answer\n42") (fun _ => "")).answer = some sentinelAnswer ∧
    sentinelAnswer ≠ "42" :=
  ⟨by rfl, by decide⟩

/-- C6 (amended): the code has no container rule and creates no
extraction scratch directory (the interpreter touches no filesystem
state); an archive upload, like every other attachment, is answered with
the sentinel string whenever the question misses the Answer Table and
does not trigger the margin rule. -/
theorem c6_no_container_rule (content question : String)
    (model : String → String)
    (hq : truthy (get_predefined_answer question) = false)
    (hm : marginTrigger question = false) :
    solve_assignment question (some content) model =
      { answer := some sentinelAnswer, errorDetail := none,
        interpInvoked := true, modelInvoked := false } := by
  unfold solve_assignment
  simp [hq, process_file_sentinel content question hm]

theorem c6_witness :
    (truthy (get_predefined_answer "What is the answer in the attached archive?") = false ∧
     marginTrigger "What is the answer in the attached archive?" = false) ∧
    solve_assignment "What is the answer in the attached archive?"
        (some "answer\n42") (fun _ => "") =
      { answer := some sentinelAnswer, errorDetail := none,
        interpInvoked := true, modelInvoked := false } :=
  ⟨⟨by decide, by decide⟩,
   c6_no_container_rule "answer\n42" "What is the answer in the attached archive?"
     (fun _ => "") (by decide) (by decide)⟩

/-- C7: If the File Interpreter stage raises an error on a request whose
question missed the Answer Table, the whole request terminates as that
error response: the error is not swallowed and the Model Fallback Client
is never invoked on that request. -/
theorem c7_interp_error_fails_request (question content : String)
    (model : String → String) (e : String)
    (hq : truthy (get_predefined_answer question) = false)
    (he : process_file content question = Except.error e) :
    solve_assignment question (some content) model =
      { answer := none, errorDetail := some e,
        interpInvoked := true, modelInvoked := false } := by
  unfold solve_assignment
  simp [hq, he]

theorem c7_witness :
    (truthy (get_predefined_answer "Compute the total margin for transactions please") = false ∧
     process_file "nope" "Compute the total margin for transactions please" =
       Except.error "Error processing file: division by zero") ∧
    solve_assignment "Compute the total margin for transactions please"
        (some "nope") (fun _ => "") =
      { answer := none,
        errorDetail := some "Error processing file: division by zero",
        interpInvoked := true, modelInvoked := false } :=
  ⟨⟨by decide, by rfl⟩,
   c7_interp_error_fails_request "Compute the total margin for transactions please"
     "nope" (fun _ => "") "Error processing file: division by zero"
     (by decide) (by rfl)⟩

/-! ## Claim C8: behaviour when the credential is absent -/

/-- C8 counterexample: with the credential absent from the environment,
startup still succeeds (recording no token) and the process serves
requests — an Answer-Table question is answered normally.  The process
does not refuse to serve. -/
theorem c8_counterexample :
    startup (fun _ => none) = Except.ok { aiproxy_token := none } ∧
    (solve_assignment "How many unique students are there in the file?"
        none (fun _ => "")).answer = some "199" :=
  ⟨rfl, by rfl⟩

/-- C8 (amended): the credential is read at startup with no presence
check, so the process starts and serves for every environment; requests
resolved by the Answer Table succeed without any credential (only the
external model call depends on the token). -/
theorem c8_no_refusal (env : String → Option String) (q a : String)
    (h : (q, a) ∈ predefined_answers) :
    (∃ cfg, startup env = Except.ok cfg) ∧
    (solve_assignment q none (fun _ => "")).answer = some a := by
  refine ⟨⟨_, rfl⟩, ?_⟩
  obtain ⟨hl, hne⟩ := tableSelf (q, a) h
  have hl' : get_predefined_answer q = some a := hl
  have hne' : a ≠ "" := hne
  have ht : truthy (some a) = true := by
    simp only [truthy, Bool.not_eq_true']
    rw [Bool.eq_false_iff]
    exact fun hcontra => hne' ((String.isEmpty_iff a).mp hcontra)
  unfold solve_assignment
  simp only [hl', ht, if_true]

theorem c8_witness :
    ("What is the p-value for the hypothesis test?", "0.03") ∈ predefined_answers ∧
    (∃ cfg, startup (fun _ => none) = Except.ok cfg) ∧
    (solve_assignment "What is the p-value for the hypothesis test?"
        none (fun _ => "")).answer = some "0.03" :=
  ⟨by decide, c8_no_refusal (fun _ => none)
    "What is the p-value for the hypothesis test?" "0.03" (by decide)⟩

/-! ## Claim C9: the prompt branches exactly on the trigger keywords -/

set_option maxRecDepth 8000 in
/-- C9: The Model Fallback Client builds the SQL-permitting prompt if
and only if the case-folded question contains one of the trigger
keywords `"sql"`, `"query"` or `"duckdb"` as a substring; for a question
containing none of them, the prompt built contains the instruction
`"Do NOT generate SQL queries"`. -/
theorem c9_prompt_branch (question : String) :
    (build_prompt question = sqlPromptHeader ++ question ↔
      ("sql".data <:+: (lowerStr question).data ∨
       "query".data <:+: (lowerStr question).data ∨
       "duckdb".data <:+: (lowerStr question).data)) ∧
    (¬ ("sql".data <:+: (lowerStr question).data ∨
        "query".data <:+: (lowerStr question).data ∨
        "duckdb".data <:+: (lowerStr question).data) →
      "Do NOT generate SQL queries".data <:+: (build_prompt question).data) := by
  have htrig : sqlTrigger question = true ↔
      ("sql".data <:+: (lowerStr question).data ∨
       "query".data <:+: (lowerStr question).data ∨
       "duckdb".data <:+: (lowerStr question).data) := by
    simp [sqlTrigger, containsStr_iff, or_assoc]
  have hne : generalPromptHeader ++ question ≠ sqlPromptHeader ++ question := by
    intro hcontra
    have h1 : generalPromptHeader.data ++ question.data =
        sqlPromptHeader.data ++ question.data := by
      have h0 := congrArg String.data hcontra
      simpa [String.data_append] using h0
    have h2 : generalPromptHeader.data = sqlPromptHeader.data :=
      List.append_cancel_right h1
    have h3 : generalPromptHeader = sqlPromptHeader :=
      congrArg String.mk h2
    exact (by decide : generalPromptHeader ≠ sqlPromptHeader) h3
  cases hb : sqlTrigger question with
  | true =>
    have hd := htrig.mp hb
    have hbuild : build_prompt question = sqlPromptHeader ++ question := by
      simp [build_prompt, hb]
    exact ⟨⟨fun _ => hd, fun _ => hbuild⟩, fun hcon => absurd hd hcon⟩
  | false =>
    have hd : ¬ ("sql".data <:+: (lowerStr question).data ∨
        "query".data <:+: (lowerStr question).data ∨
        "duckdb".data <:+: (lowerStr question).data) := by
      rw [← htrig, hb]; simp
    have hbuild : build_prompt question = generalPromptHeader ++ question := by
      simp [build_prompt, hb]
    refine ⟨⟨fun heq => absurd (hbuild ▸ heq) hne, fun hdisj => absurd hdisj hd⟩,
      fun _ => ?_⟩
    rw [hbuild, String.data_append]
    have hin : "Do NOT generate SQL queries".data <:+: generalPromptHeader.data :=
      (containsCL_iff generalPromptHeader.data "Do NOT generate SQL queries".data).mp
        (by rfl)
    exact hin.trans (List.prefix_append generalPromptHeader.data question.data).isInfix

theorem c9_witness :
    "Do NOT generate SQL queries".data <:+:
      (build_prompt "What is two plus two?").data :=
  (c9_prompt_branch "What is two plus two?").2 (by decide)

/-! ## Claim C10: the reply post-processing is exactly `strip()` -/

theorem head_dropWhile_not {α : Type} (p : α → Bool) (l : List α) (c : α)
    (h : (l.dropWhile p).head? = some c) : p c = false := by
  induction l with
  | nil => simp [List.dropWhile] at h
  | cons a t ih =>
    rw [List.dropWhile_cons] at h
    by_cases hp : p a = true
    · rw [if_pos hp] at h
      exact ih h
    · have hp' : p a = false := by simpa using hp
      rw [if_neg (by simp [hp'])] at h
      simp only [List.head?_cons, Option.some.injEq] at h
      rw [← h]
      exact hp'

theorem takeWhile_dropWhile_nil {α : Type} (p : α → Bool) (l : List α) :
    (l.dropWhile p).takeWhile p = [] := by
  induction l with
  | nil => rfl
  | cons a t ih =>
    rw [List.dropWhile_cons]
    by_cases hp : p a = true
    · rw [if_pos hp]
      exact ih
    · have hp' : p a = false := by simpa using hp
      rw [if_neg (by simp [hp'])]
      simp [List.takeWhile_cons, hp']

theorem takeWhile_nil_of_head {α : Type} (p : α → Bool) (l : List α)
    (h : ∀ c, l.head? = some c → p c = false) : l.takeWhile p = [] := by
  cases l with
  | nil => rfl
  | cons a t => simp [List.takeWhile_cons, h a rfl]

/-- The stripped reply is a prefix of the reply with its leading
whitespace removed. -/
theorem pyStripCL_prefix_dropWhile (l : List Char) :
    pyStripCL l <+: l.dropWhile isPySpace := by
  unfold pyStripCL
  have h1 : (l.dropWhile isPySpace).reverse.dropWhile isPySpace <:+
      (l.dropWhile isPySpace).reverse := List.dropWhile_suffix isPySpace
  have h2 := List.reverse_prefix.mpr h1
  rwa [List.reverse_reverse] at h2

/-- C10: In this revision the Model Fallback Client's post-processing is
exactly Python's `strip()`: `get_llm_answer` returns the model's reply
with only leading and trailing whitespace removed — the reply splits as
whitespace ++ stripped ++ whitespace, the stripped part neither starts
nor ends with whitespace, and every interior character (decimal points
included, e.g. `"0.5154"`) is preserved unchanged; no alphanumeric-only
sanitization is applied. -/
theorem c10_strip_is_only_postprocessing (model : String → String)
    (question reply : String) :
    get_llm_answer model question = pyStrip (model (build_prompt question)) ∧
    (∃ pre post : List Char,
      reply.data = pre ++ (pyStrip reply).data ++ post ∧
      pre.all isPySpace = true ∧ post.all isPySpace = true) ∧
    (pyStrip reply).data.takeWhile isPySpace = [] ∧
    (pyStrip reply).data.reverse.takeWhile isPySpace = [] ∧
    pyStrip "0.5154" = "0.5154" := by
  refine ⟨rfl, ⟨reply.data.takeWhile isPySpace,
      ((reply.data.dropWhile isPySpace).reverse.takeWhile isPySpace).reverse,
      ?_, ?_, ?_⟩, ?_, ?_, by rfl⟩
  · show reply.data = reply.data.takeWhile isPySpace ++ pyStripCL reply.data ++
      ((reply.data.dropWhile isPySpace).reverse.takeWhile isPySpace).reverse
    have h2 : reply.data.dropWhile isPySpace =
        pyStripCL reply.data ++
          ((reply.data.dropWhile isPySpace).reverse.takeWhile isPySpace).reverse := by
      unfold pyStripCL
      calc reply.data.dropWhile isPySpace
          = ((reply.data.dropWhile isPySpace).reverse).reverse :=
            (List.reverse_reverse _).symm
        _ = ((reply.data.dropWhile isPySpace).reverse.takeWhile isPySpace ++
              (reply.data.dropWhile isPySpace).reverse.dropWhile isPySpace).reverse := by
            rw [List.takeWhile_append_dropWhile]
        _ = ((reply.data.dropWhile isPySpace).reverse.dropWhile isPySpace).reverse ++
              ((reply.data.dropWhile isPySpace).reverse.takeWhile isPySpace).reverse := by
            rw [List.reverse_append]
    calc reply.data
        = reply.data.takeWhile isPySpace ++ reply.data.dropWhile isPySpace :=
          (List.takeWhile_append_dropWhile isPySpace reply.data).symm
      _ = reply.data.takeWhile isPySpace ++ (pyStripCL reply.data ++
            ((reply.data.dropWhile isPySpace).reverse.takeWhile isPySpace).reverse) := by
          rw [← h2]
      _ = reply.data.takeWhile isPySpace ++ pyStripCL reply.data ++
            ((reply.data.dropWhile isPySpace).reverse.takeWhile isPySpace).reverse := by
          rw [List.append_assoc]
  · simp only [List.all_eq_true]
    exact fun c hc => List.mem_takeWhile_imp hc
  · simp only [List.all_eq_true]
    intro c hc
    exact List.mem_takeWhile_imp (List.mem_reverse.mp hc)
  · apply takeWhile_nil_of_head
    intro c hc
    obtain ⟨t, ht⟩ := pyStripCL_prefix_dropWhile reply.data
    have hne : pyStripCL reply.data ≠ [] := by
      intro hnil
      rw [show (pyStrip reply).data = pyStripCL reply.data from rfl, hnil] at hc
      exact Option.noConfusion hc
    have hhead : (reply.data.dropWhile isPySpace).head? = some c := by
      rw [← ht, List.head?_append_of_ne_nil _ hne]
      exact hc
    exact head_dropWhile_not isPySpace reply.data c hhead
  · show (pyStripCL reply.data).reverse.takeWhile isPySpace = []
    unfold pyStripCL
    rw [List.reverse_reverse]
    exact takeWhile_dropWhile_nil isPySpace (reply.data.dropWhile isPySpace).reverse

end TdsSolver








